import Mathlib

/-!
Shallow embedding of the `waiter` diagnostic HTTP server (src/src/main.rs).

Rust `String` values are modelled as lists of Unicode scalar values
(`List Nat` of codepoints); the TCP stream is modelled as the list of bytes
(`List Nat`, each < 256) that the peer will deliver before closing the
connection.  Reads never fail with an I/O error in this model (the stream is
a pure byte list), so the only read-side failures are end-of-stream and
invalid UTF-8, which is exactly what the claims exercise.  A Rust `panic!`
(every `.unwrap()` in `handle_connection`, and the `panic!` in `main`)
aborts the whole process; the model records which unwrap fired.
-/

namespace Waiter

/-- Conversion of a Lean string literal to the codepoint-list model of a Rust
string (used to write concrete inputs and expected outputs). -/
def str (s : String) : List Nat := s.data.map Char.toNat

/-- Unicode White_Space property, as tested by Rust `char::is_whitespace`
(the full finite list of White_Space codepoints). -/
def isRustWhitespace (c : Nat) : Bool :=
  (9 ≤ c && c ≤ 13) || c == 32 || c == 0x85 || c == 0xA0 || c == 0x1680 ||
  (0x2000 ≤ c && c ≤ 0x200A) || c == 0x2028 || c == 0x2029 || c == 0x202F ||
  c == 0x205F || c == 0x3000

/-- Model of Rust `str::trim`: remove leading and trailing whitespace. -/
def trimStr (s : List Nat) : List Nat :=
  ((s.dropWhile isRustWhitespace).reverse.dropWhile isRustWhitespace).reverse

/-- Model of Rust `str::to_lowercase` on the ASCII range.  The Rust function
additionally applies Unicode case mapping to non-ASCII characters; every
pattern the program compares against ("transfer-encoding:", "chunked",
"content-length:") is pure ASCII, and on ASCII the two functions agree. -/
def toLowerAscii (s : List Nat) : List Nat :=
  s.map (fun c => if 65 ≤ c && c ≤ 90 then c + 32 else c)

/-- First occurrence of `pat` in `s`: returns the part before the match and
the part after it.  `none` when `pat` does not occur. -/
def findSub (pat : List Nat) : List Nat → Option (List Nat × List Nat)
  | [] => if pat = [] then some ([], []) else none
  | b :: rest =>
    if pat.isPrefixOf (b :: rest) then some ([], (b :: rest).drop pat.length)
    else
      match findSub pat rest with
      | some (p, q) => some (b :: p, q)
      | none => none

/-- Model of Rust `str::contains` (substring search). -/
def containsSub (pat s : List Nat) : Bool := (findSub pat s).isSome

/-- Model of `s.split(pat).nth(1)`: the text strictly between the first and
second occurrence of the separator (or to the end when the separator occurs
only once); `none` when the separator does not occur at all. -/
def splitSecond (pat s : List Nat) : Option (List Nat) :=
  match findSub pat s with
  | none => none
  | some (_, post) =>
    match findSub pat post with
    | none => some post
    | some (p2, _) => some p2

/-- Rust integer parsing accepts one optional leading plus sign. -/
def stripPlus : List Nat → List Nat
  | 43 :: rest => rest
  | s => s

def isDecDigit (c : Nat) : Bool := 48 ≤ c && c ≤ 57

def isHexDigit (c : Nat) : Bool :=
  (48 ≤ c && c ≤ 57) || (97 ≤ c && c ≤ 102) || (65 ≤ c && c ≤ 70)

def hexDigitVal (c : Nat) : Nat :=
  if c ≤ 57 then c - 48 else if c ≤ 70 then c - 55 else c - 87

/-- Shared shape of Rust unsigned integer parsing on a 64-bit target: after
the optional sign, the input must be a non-empty run of digits whose value
fits in 64 bits (overflow is a parse error). -/
def parseDigits (radix : Nat) (digitOk : Nat → Bool) (digitVal : Nat → Nat)
    (s : List Nat) : Option Nat :=
  let t := stripPlus s
  if t = [] then none
  else if t.all digitOk then
    let v := t.foldl (fun acc c => acc * radix + digitVal c) 0
    if v < 2 ^ 64 then some v else none
  else none

/-- Model of `usize::from_str_radix(s, 16)` (64-bit `usize`). -/
def parseHexU64 (s : List Nat) : Option Nat :=
  parseDigits 16 isHexDigit hexDigitVal s

/-- Model of `s.parse::<usize>()` (64-bit `usize`). -/
def parseDecU64 (s : List Nat) : Option Nat :=
  parseDigits 10 isDecDigit (fun c => c - 48) s

/-! UTF-8.  `utf8Decode` is the strict decoder used by `String::from_utf8`
and by `read_line`; `utf8DecodeLossy` is `String::from_utf8_lossy`, which
replaces each maximal invalid subsequence prefix with U+FFFD following the
substitution-of-maximal-subparts policy Rust implements. -/

def isUtf8Cont (b : Nat) : Bool := 0x80 ≤ b && b ≤ 0xBF

/-- Valid second byte of a three-byte sequence (excludes overlong forms and
surrogate codepoints, as Rust does). -/
def utf8Valid3 (b b2 : Nat) : Bool :=
  if b = 0xE0 then 0xA0 ≤ b2 && b2 ≤ 0xBF
  else if b = 0xED then 0x80 ≤ b2 && b2 ≤ 0x9F
  else isUtf8Cont b2

/-- Valid second byte of a four-byte sequence (excludes overlong forms and
codepoints above U+10FFFF, as Rust does). -/
def utf8Valid4 (b b2 : Nat) : Bool :=
  if b = 0xF0 then 0x90 ≤ b2 && b2 ≤ 0xBF
  else if b = 0xF4 then 0x80 ≤ b2 && b2 ≤ 0x8F
  else isUtf8Cont b2

/-- Strict decoding of one UTF-8 scalar whose lead byte is `b` and whose
following bytes are `rest`: the scalar and the bytes left over, or `none`
on any ill-formed sequence (stray continuation, overlong form, surrogate,
value above U+10FFFF, truncated sequence). -/
def utf8DecodeOne (b : Nat) (rest : List Nat) : Option (Nat × List Nat) :=
  if b < 0x80 then some (b, rest)
  else if b < 0xC2 then none
  else if b ≤ 0xDF then
    match rest with
    | b2 :: r =>
      if isUtf8Cont b2 then some ((b - 0xC0) * 64 + (b2 - 0x80), r) else none
    | [] => none
  else if b ≤ 0xEF then
    match rest with
    | b2 :: b3 :: r =>
      if utf8Valid3 b b2 && isUtf8Cont b3 then
        some ((b - 0xE0) * 4096 + (b2 - 0x80) * 64 + (b3 - 0x80), r)
      else none
    | _ => none
  else if b ≤ 0xF4 then
    match rest with
    | b2 :: b3 :: b4 :: r =>
      if utf8Valid4 b b2 && isUtf8Cont b3 && isUtf8Cont b4 then
        some ((b - 0xF0) * 262144 + (b2 - 0x80) * 4096 + (b3 - 0x80) * 64 +
          (b4 - 0x80), r)
      else none
    | _ => none
  else none

/-- Worker for strict UTF-8 decoding; each scalar consumes at least one
byte, so fuel equal to the byte count never runs out. -/
def utf8DecodeAux : Nat → List Nat → Option (List Nat)
  | _, [] => some []
  | fuel, b :: rest =>
    match fuel with
    | 0 => none
    | fuel + 1 =>
      match utf8DecodeOne b rest with
      | none => none
      | some (cp, r) => (utf8DecodeAux fuel r).map (cp :: ·)

/-- Strict UTF-8 decoding of a byte list to codepoints. -/
def utf8Decode (s : List Nat) : Option (List Nat) := utf8DecodeAux s.length s

/-- Worker for lossy UTF-8 decoding.  Every step consumes at least one byte,
so fuel equal to the byte count never runs out; the recursion is on fuel. -/
def utf8DecodeLossyAux : Nat → List Nat → List Nat
  | 0, _ => []
  | _, [] => []
  | fuel + 1, b :: rest =>
    if b < 0x80 then b :: utf8DecodeLossyAux fuel rest
    else if b < 0xC2 then 0xFFFD :: utf8DecodeLossyAux fuel rest
    else if b ≤ 0xDF then
      match rest with
      | [] => [0xFFFD]
      | b2 :: r =>
        if isUtf8Cont b2 then
          ((b - 0xC0) * 64 + (b2 - 0x80)) :: utf8DecodeLossyAux fuel r
        else 0xFFFD :: utf8DecodeLossyAux fuel rest
    else if b ≤ 0xEF then
      match rest with
      | [] => [0xFFFD]
      | b2 :: r =>
        if utf8Valid3 b b2 then
          match r with
          | [] => [0xFFFD]
          | b3 :: r2 =>
            if isUtf8Cont b3 then
              ((b - 0xE0) * 4096 + (b2 - 0x80) * 64 + (b3 - 0x80)) ::
                utf8DecodeLossyAux fuel r2
            else 0xFFFD :: utf8DecodeLossyAux fuel r
        else 0xFFFD :: utf8DecodeLossyAux fuel rest
    else if b ≤ 0xF4 then
      match rest with
      | [] => [0xFFFD]
      | b2 :: r =>
        if utf8Valid4 b b2 then
          match r with
          | [] => [0xFFFD]
          | b3 :: r2 =>
            if isUtf8Cont b3 then
              match r2 with
              | [] => [0xFFFD]
              | b4 :: r3 =>
                if isUtf8Cont b4 then
                  ((b - 0xF0) * 262144 + (b2 - 0x80) * 4096 +
                    (b3 - 0x80) * 64 + (b4 - 0x80)) ::
                    utf8DecodeLossyAux fuel r3
                else 0xFFFD :: utf8DecodeLossyAux fuel r2
            else 0xFFFD :: utf8DecodeLossyAux fuel r
        else 0xFFFD :: utf8DecodeLossyAux fuel rest
    else 0xFFFD :: utf8DecodeLossyAux fuel rest

/-- Lossy UTF-8 decoding: on an invalid sequence, the maximal valid prefix
of the sequence (at least one byte) is consumed and one U+FFFD is emitted. -/
def utf8DecodeLossy (s : List Nat) : List Nat := utf8DecodeLossyAux s.length s

/-- UTF-8 encoding of one Unicode scalar value. -/
def utf8EncodeChar (c : Nat) : List Nat :=
  if c < 0x80 then [c]
  else if c < 0x800 then [0xC0 + c / 64, 0x80 + c % 64]
  else if c < 0x10000 then
    [0xE0 + c / 4096, 0x80 + (c / 64) % 64, 0x80 + c % 64]
  else [0xF0 + c / 262144, 0x80 + (c / 4096) % 64, 0x80 + (c / 64) % 64,
        0x80 + c % 64]

/-- UTF-8 encoding of a codepoint list. -/
def utf8Encode (s : List Nat) : List Nat := (s.map utf8EncodeChar).flatten

/-- A codepoint a Rust `String` may contain: a Unicode scalar value. -/
def validScalar (c : Nat) : Bool := c < 0x110000 && !(0xD800 ≤ c && c ≤ 0xDFFF)

/-! Stream reading primitives, modelling `BufReader` over the byte list. -/

/-- The bytes of the next line (up to and including the first LF byte, or to
end-of-stream when no LF remains) and the bytes after it. -/
def splitLine : List Nat → List Nat × List Nat
  | [] => ([], [])
  | b :: rest =>
    if b = 10 then ([10], rest)
    else
      let p := splitLine rest
      (b :: p.1, p.2)

/-- Model of `BufRead::read_line` on the modelled stream: the next line's
bytes are consumed and decoded as strict UTF-8; `none` is the `Err` case
(the line is not valid UTF-8).  At end-of-stream it returns `Ok(0)`, i.e.
`some ([], [])`. -/
def readLine (input : List Nat) : Option (List Nat × List Nat) :=
  match utf8Decode (splitLine input).1 with
  | some l => some (l, (splitLine input).2)
  | none => none

/-- Header-collection loop of `handle_connection` (main.rs lines 47-64),
with fuel bounding the iteration count (each iteration that continues
consumes at least one byte, so `input.length + 1` fuel is always enough).
`none` models the `Err(e)` arm: the handler logs and returns early.
A read of zero bytes (end-of-stream) breaks the loop; a line equal to
exactly "\r\n" breaks the loop; every other line is appended trimmed. -/
def collectHeadersAux : Nat → List Nat → Option (List (List Nat) × List Nat)
  | 0, input => some ([], input)
  | fuel + 1, input =>
    match input with
    | [] => some ([], [])
    | _ =>
      match readLine input with
      | none => none
      | some (l, rest) =>
        if l = [13, 10] then some ([], rest)
        else
          match collectHeadersAux fuel rest with
          | none => none
          | some (hs, rest2) => some (trimStr l :: hs, rest2)

def collectHeaders (input : List Nat) : Option (List (List Nat) × List Nat) :=
  collectHeadersAux (input.length + 1) input

/-- Wire encoding of a sequence of header lines: each line UTF-8 encoded
and terminated by CRLF (used to quantify over well-formed header blocks). -/
def encodeHeaderLines (ls : List (List Nat)) : List Nat :=
  (ls.map (fun l => utf8Encode l ++ [13, 10])).flatten

/-- The body-framing decision (a transient decision, not stored). -/
inductive Framing
  | chunked
  | contentLength (n : Nat)
  | noBody
deriving DecidableEq

/-- The `is_chunked` predicate of main.rs lines 68-71: the lowercased header
line starts with "transfer-encoding:" and contains "chunked" anywhere. -/
def isChunkedHeader (h : List Nat) : Bool :=
  (str "transfer-encoding:").isPrefixOf (toLowerAscii h) &&
    containsSub (str "chunked") (toLowerAscii h)

/-- The content-length extraction of main.rs lines 90-94: the first header
line whose lowercase starts with "content-length:", split on ": " taking the
second piece, trimmed and parsed as `usize`. -/
def contentLengthValue (headers : List (List Nat)) : Option Nat :=
  match headers.find?
      (fun h => (str "content-length:").isPrefixOf (toLowerAscii h)) with
  | none => none
  | some h =>
    match splitSecond (str ": ") h with
    | none => none
    | some v => parseDecU64 (trimStr v)

/-- The framing decision implemented by the branch structure of main.rs
lines 68-100: chunked is tested first, then content-length, else no body. -/
def framingDecision (headers : List (List Nat)) : Framing :=
  if headers.any isChunkedHeader then .chunked
  else
    match contentLengthValue headers with
    | some n => .contentLength n
    | none => .noBody

/-- Which `.unwrap()` of `handle_connection` fired; a panic aborts the whole
process (the binary has no panic handler). -/
inductive PanicKind
  | truncatedBody
  | invalidBodyEncoding
  | chunkSizeLineInvalidUtf8
  | chunkDataTruncated
  | chunkCrlfLineInvalidUtf8
deriving DecidableEq

/-- Chunked-body loop of main.rs lines 74-88, with fuel as for the header
loop.  Each iteration reads a size line (`unwrap`: invalid UTF-8 panics),
parses it as hex with `unwrap_or(0)`, stops on size 0, otherwise reads
exactly that many raw bytes (`unwrap`: too few bytes panics), appends their
lossy decoding, and discards the following line (`unwrap` again). -/
def chunkLoopAux : Nat → List Nat → List Nat →
    Except PanicKind (List Nat × List Nat)
  | 0, input, body => .ok (body, input)
  | fuel + 1, input, body =>
    match readLine input with
    | none => .error .chunkSizeLineInvalidUtf8
    | some (l, rest) =>
      let chunkSize := (parseHexU64 (trimStr l)).getD 0
      if chunkSize = 0 then .ok (body, rest)
      else if chunkSize ≤ rest.length then
        match readLine (rest.drop chunkSize) with
        | none => .error .chunkCrlfLineInvalidUtf8
        | some (_, rest2) =>
          chunkLoopAux fuel rest2 (body ++ utf8DecodeLossy (rest.take chunkSize))
      else .error .chunkDataTruncated

def chunkLoop (input : List Nat) : Except PanicKind (List Nat × List Nat) :=
  chunkLoopAux (input.length + 1) input []

/-- The status registry enumeration of main.rs lines 105-168. -/
inductive HttpStatusCode
  | Continue
  | SwitchingProtocols
  | Processing
  | OK
  | Created
  | Accepted
  | NonAuthoritativeInformation
  | NoContent
  | ResetContent
  | PartialContent
  | MultiStatus
  | AlreadyReported
  | IMUsed
  | MultipleChoices
  | MovedPermanently
  | Found
  | SeeOther
  | NotModified
  | UseProxy
  | TemporaryRedirect
  | PermanentRedirect
  | BadRequest
  | Unauthorized
  | PaymentRequired
  | Forbidden
  | NotFound
  | MethodNotAllowed
  | NotAcceptable
  | ProxyAuthenticationRequired
  | RequestTimeout
  | Conflict
  | Gone
  | LengthRequired
  | PreconditionFailed
  | PayloadTooLarge
  | URITooLong
  | UnsupportedMediaType
  | RangeNotSatisfiable
  | ExpectationFailed
  | ImATeapot
  | MisdirectedRequest
  | UnprocessableEntity
  | Locked
  | FailedDependency
  | TooEarly
  | UpgradeRequired
  | PreconditionRequired
  | TooManyRequests
  | RequestHeaderFieldsTooLarge
  | UnavailableForLegalReasons
  | InternalServerError
  | NotImplemented
  | BadGateway
  | ServiceUnavailable
  | GatewayTimeout
  | HTTPVersionNotSupported
  | VariantAlsoNegotiates
  | InsufficientStorage
  | LoopDetected
  | NotExtended
  | NetworkAuthenticationRequired
deriving DecidableEq

/-- The numeric discriminant each variant carries in the Rust enum (what the
`as i32` cast in the response format string produces). -/
def HttpStatusCode.discriminant : HttpStatusCode → Nat
  | .Continue => 100
  | .SwitchingProtocols => 101
  | .Processing => 102
  | .OK => 200
  | .Created => 201
  | .Accepted => 202
  | .NonAuthoritativeInformation => 203
  | .NoContent => 204
  | .ResetContent => 205
  | .PartialContent => 206
  | .MultiStatus => 207
  | .AlreadyReported => 208
  | .IMUsed => 226
  | .MultipleChoices => 300
  | .MovedPermanently => 301
  | .Found => 302
  | .SeeOther => 303
  | .NotModified => 304
  | .UseProxy => 305
  | .TemporaryRedirect => 307
  | .PermanentRedirect => 308
  | .BadRequest => 400
  | .Unauthorized => 401
  | .PaymentRequired => 402
  | .Forbidden => 403
  | .NotFound => 404
  | .MethodNotAllowed => 405
  | .NotAcceptable => 406
  | .ProxyAuthenticationRequired => 407
  | .RequestTimeout => 408
  | .Conflict => 409
  | .Gone => 410
  | .LengthRequired => 411
  | .PreconditionFailed => 412
  | .PayloadTooLarge => 413
  | .URITooLong => 414
  | .UnsupportedMediaType => 415
  | .RangeNotSatisfiable => 416
  | .ExpectationFailed => 417
  | .ImATeapot => 418
  | .MisdirectedRequest => 421
  | .UnprocessableEntity => 422
  | .Locked => 423
  | .FailedDependency => 424
  | .TooEarly => 425
  | .UpgradeRequired => 426
  | .PreconditionRequired => 428
  | .TooManyRequests => 429
  | .RequestHeaderFieldsTooLarge => 431
  | .UnavailableForLegalReasons => 451
  | .InternalServerError => 500
  | .NotImplemented => 501
  | .BadGateway => 502
  | .ServiceUnavailable => 503
  | .GatewayTimeout => 504
  | .HTTPVersionNotSupported => 505
  | .VariantAlsoNegotiates => 506
  | .InsufficientStorage => 507
  | .LoopDetected => 508
  | .NotExtended => 510
  | .NetworkAuthenticationRequired => 511

/-- The reason-phrase table of main.rs lines 171-235. -/
def HttpStatusCode.reason_phrase : HttpStatusCode → String
  | .Continue => "Continue"
  | .SwitchingProtocols => "Switching Protocols"
  | .Processing => "Processing"
  | .OK => "OK"
  | .Created => "Created"
  | .Accepted => "Accepted"
  | .NonAuthoritativeInformation => "Non-Authoritative Information"
  | .NoContent => "No Content"
  | .ResetContent => "Reset Content"
  | .PartialContent => "Partial Content"
  | .MultiStatus => "Multi-Status"
  | .AlreadyReported => "Already Reported"
  | .IMUsed => "IM Used"
  | .MultipleChoices => "Multiple Choices"
  | .MovedPermanently => "Moved Permanently"
  | .Found => "Found"
  | .SeeOther => "See Other"
  | .NotModified => "Not Modified"
  | .UseProxy => "Use Proxy"
  | .TemporaryRedirect => "Temporary Redirect"
  | .PermanentRedirect => "Permanent Redirect"
  | .BadRequest => "Bad Request"
  | .Unauthorized => "Unauthorized"
  | .PaymentRequired => "Payment Required"
  | .Forbidden => "Forbidden"
  | .NotFound => "Not Found"
  | .MethodNotAllowed => "Method Not Allowed"
  | .NotAcceptable => "Not Acceptable"
  | .ProxyAuthenticationRequired => "Proxy Authentication Required"
  | .RequestTimeout => "Request Timeout"
  | .Conflict => "Conflict"
  | .Gone => "Gone"
  | .LengthRequired => "Length Required"
  | .PreconditionFailed => "Precondition Failed"
  | .PayloadTooLarge => "Payload Too Large"
  | .URITooLong => "URI Too Long"
  | .UnsupportedMediaType => "Unsupported Media Type"
  | .RangeNotSatisfiable => "Range Not Satisfiable"
  | .ExpectationFailed => "Expectation Failed"
  | .ImATeapot => "I'm a teapot"
  | .MisdirectedRequest => "Misdirected Request"
  | .UnprocessableEntity => "Unprocessable Entity"
  | .Locked => "Locked"
  | .FailedDependency => "Failed Dependency"
  | .TooEarly => "Too Early"
  | .UpgradeRequired => "Upgrade Required"
  | .PreconditionRequired => "Precondition Required"
  | .TooManyRequests => "Too Many Requests"
  | .RequestHeaderFieldsTooLarge => "Request Header Fields Too Large"
  | .UnavailableForLegalReasons => "Unavailable For Legal Reasons"
  | .InternalServerError => "Internal Server Error"
  | .NotImplemented => "Not Implemented"
  | .BadGateway => "Bad Gateway"
  | .ServiceUnavailable => "Service Unavailable"
  | .GatewayTimeout => "Gateway Timeout"
  | .HTTPVersionNotSupported => "HTTP Version Not Supported"
  | .VariantAlsoNegotiates => "Variant Also Negotiates"
  | .InsufficientStorage => "Insufficient Storage"
  | .LoopDetected => "Loop Detected"
  | .NotExtended => "Not Extended"
  | .NetworkAuthenticationRequired => "Network Authentication Required"

/-- The parse table of main.rs lines 236-301. -/
def HttpStatusCode.from_u16 : Nat → Option HttpStatusCode
  | 100 => some .Continue
  | 101 => some .SwitchingProtocols
  | 102 => some .Processing
  | 200 => some .OK
  | 201 => some .Created
  | 202 => some .Accepted
  | 203 => some .NonAuthoritativeInformation
  | 204 => some .NoContent
  | 205 => some .ResetContent
  | 206 => some .PartialContent
  | 207 => some .MultiStatus
  | 208 => some .AlreadyReported
  | 226 => some .IMUsed
  | 300 => some .MultipleChoices
  | 301 => some .MovedPermanently
  | 302 => some .Found
  | 303 => some .SeeOther
  | 304 => some .NotModified
  | 305 => some .UseProxy
  | 307 => some .TemporaryRedirect
  | 308 => some .PermanentRedirect
  | 400 => some .BadRequest
  | 401 => some .Unauthorized
  | 402 => some .PaymentRequired
  | 403 => some .Forbidden
  | 404 => some .NotFound
  | 405 => some .MethodNotAllowed
  | 406 => some .NotAcceptable
  | 407 => some .ProxyAuthenticationRequired
  | 408 => some .RequestTimeout
  | 409 => some .Conflict
  | 410 => some .Gone
  | 411 => some .LengthRequired
  | 412 => some .PreconditionFailed
  | 413 => some .PayloadTooLarge
  | 414 => some .URITooLong
  | 415 => some .UnsupportedMediaType
  | 416 => some .RangeNotSatisfiable
  | 417 => some .ExpectationFailed
  | 418 => some .ImATeapot
  | 421 => some .MisdirectedRequest
  | 422 => some .UnprocessableEntity
  | 423 => some .Locked
  | 424 => some .FailedDependency
  | 425 => some .TooEarly
  | 426 => some .UpgradeRequired
  | 428 => some .PreconditionRequired
  | 429 => some .TooManyRequests
  | 431 => some .RequestHeaderFieldsTooLarge
  | 451 => some .UnavailableForLegalReasons
  | 500 => some .InternalServerError
  | 501 => some .NotImplemented
  | 502 => some .BadGateway
  | 503 => some .ServiceUnavailable
  | 504 => some .GatewayTimeout
  | 505 => some .HTTPVersionNotSupported
  | 506 => some .VariantAlsoNegotiates
  | 507 => some .InsufficientStorage
  | 508 => some .LoopDetected
  | 510 => some .NotExtended
  | 511 => some .NetworkAuthenticationRequired
  | _ => none

/-- The response bytes built at main.rs line 102: the format string
`HTTP/1.1 {} {}\r\n\r\n` applied to the `as i32` cast of the code and its
reason phrase (every response byte is ASCII, so codepoints and stream bytes
coincide). -/
def httpResponse (c : HttpStatusCode) : List Nat :=
  str ("HTTP/1.1 " ++ Nat.repr c.discriminant ++ " " ++ c.reason_phrase ++
    "\r\n\r\n")

/-- Observable outcome of one `handle_connection` call. -/
inductive Outcome
  | done (headers : List (List Nat)) (body : List Nat) (response : List Nat)
      (remaining : List Nat)
  | headerReadAbort
  | panicked (k : PanicKind)
deriving DecidableEq

/-- Model of `handle_connection` (main.rs lines 45-104).  `done` carries the
collected headers, the assembled body, the single response written by
`write_all`, and the stream bytes never read; `headerReadAbort` is the
logged early return on a header read error; `panicked` aborts the process. -/
def handle_connection (input : List Nat) (return_code : HttpStatusCode) :
    Outcome :=
  match collectHeaders input with
  | none => .headerReadAbort
  | some (headers, rest) =>
    match framingDecision headers with
    | .chunked =>
      match chunkLoop rest with
      | .error k => .panicked k
      | .ok (body, rest2) =>
        .done headers body (httpResponse return_code) rest2
    | .contentLength n =>
      if n ≤ rest.length then
        match utf8Decode (rest.take n) with
        | none => .panicked .invalidBodyEncoding
        | some body =>
          .done headers body (httpResponse return_code) (rest.drop n)
      else .panicked .truncatedBody
    | .noBody => .done headers [] (httpResponse return_code) rest

/-- The accept loop of `main` (main.rs lines 39-42): connections are handled
strictly sequentially; a panic inside `handle_connection` unwinds out of
`main` and aborts the process, so no later connection is ever accepted. -/
def serverRun (code : HttpStatusCode) : List (List Nat) → List Outcome
  | [] => []
  | c :: rest =>
    match handle_connection c code with
    | .panicked k => [.panicked k]
    | o => o :: serverRun code rest

/-- Process-level outcome of `main` for a given `--return-code` value. -/
inductive ServerStart
  | configPanic
  | started (outcomes : List Outcome)
deriving DecidableEq

/-- Startup validation of main.rs lines 24-27: an unregistered return code
panics before the listener is bound; otherwise the accept loop runs. -/
def runServer (return_code : Nat) (conns : List (List Nat)) : ServerStart :=
  match HttpStatusCode.from_u16 return_code with
  | none => .configPanic
  | some c => .started (serverRun c conns)

/-- The closed registered set enumerated in section 3 of the spec. -/
def registeredCodes : List Nat :=
  [100, 101, 102, 200, 201, 202, 203, 204, 205, 206, 207, 208, 226,
   300, 301, 302, 303, 304, 305, 307, 308,
   400, 401, 402, 403, 404, 405, 406, 407, 408, 409, 410, 411, 412, 413,
   414, 415, 416, 417, 418, 421, 422, 423, 424, 425, 426, 428, 429, 431, 451,
   500, 501, 502, 503, 504, 505, 506, 507, 508, 510, 511]

/-- Modelled from the spec: the canonical IANA code-to-reason-phrase table
the spec's section 3 refers to ("each value maps 1:1 to a canonical reason
phrase"), written out independently of the source tables so the round-trip
claim compares the code against it. -/
def canonicalReasonTable : List (Nat × String) :=
  [(100, "Continue"), (101, "Switching Protocols"), (102, "Processing"),
   (200, "OK"), (201, "Created"), (202, "Accepted"),
   (203, "Non-Authoritative Information"), (204, "No Content"),
   (205, "Reset Content"), (206, "Partial Content"), (207, "Multi-Status"),
   (208, "Already Reported"), (226, "IM Used"), (300, "Multiple Choices"),
   (301, "Moved Permanently"), (302, "Found"), (303, "See Other"),
   (304, "Not Modified"), (305, "Use Proxy"), (307, "Temporary Redirect"),
   (308, "Permanent Redirect"), (400, "Bad Request"), (401, "Unauthorized"),
   (402, "Payment Required"), (403, "Forbidden"), (404, "Not Found"),
   (405, "Method Not Allowed"), (406, "Not Acceptable"),
   (407, "Proxy Authentication Required"), (408, "Request Timeout"),
   (409, "Conflict"), (410, "Gone"), (411, "Length Required"),
   (412, "Precondition Failed"), (413, "Payload Too Large"),
   (414, "URI Too Long"), (415, "Unsupported Media Type"),
   (416, "Range Not Satisfiable"), (417, "Expectation Failed"),
   (418, "I'm a teapot"), (421, "Misdirected Request"),
   (422, "Unprocessable Entity"), (423, "Locked"),
   (424, "Failed Dependency"), (425, "Too Early"), (426, "Upgrade Required"),
   (428, "Precondition Required"), (429, "Too Many Requests"),
   (431, "Request Header Fields Too Large"),
   (451, "Unavailable For Legal Reasons"), (500, "Internal Server Error"),
   (501, "Not Implemented"), (502, "Bad Gateway"),
   (503, "Service Unavailable"), (504, "Gateway Timeout"),
   (505, "HTTP Version Not Supported"), (506, "Variant Also Negotiates"),
   (507, "Insufficient Storage"), (508, "Loop Detected"),
   (510, "Not Extended"), (511, "Network Authentication Required")]

/-! Helper lemmas shared by several claim proofs. -/

/-- A connection whose handler panics is the last one the process serves. -/
theorem serverRun_cons_panicked (code : HttpStatusCode) (c : List Nat)
    (more : List (List Nat)) (k : PanicKind)
    (h : handle_connection c code = .panicked k) :
    serverRun code (c :: more) = [.panicked k] := by
  simp only [serverRun, h]

/-- C2.  Every connection that completes body assembly gets exactly the bare
status line built from the configured code and its canonical reason phrase,
no other headers and no body, whatever the request was; configured with 404
that line is "HTTP/1.1 404 Not Found\r\n\r\n". -/
theorem response_is_bare_status_line (input : List Nat)
    (code : HttpStatusCode) (hs : List (List Nat)) (b r rem : List Nat)
    (h : handle_connection input code = .done hs b r rem) :
    r = httpResponse code ∧
      (code = .NotFound → r = str "HTTP/1.1 404 Not Found\r\n\r\n") := by
  have hr : r = httpResponse code := by
    unfold handle_connection at h
    repeat' split at h
    all_goals simp_all
  refine ⟨hr, fun hc => ?_⟩
  subst hc hr
  rfl

set_option maxRecDepth 100000 in
/-- Witness for C2: the empty request with configured code 404. -/
theorem response_is_bare_status_line_witness :
    str "HTTP/1.1 404 Not Found\r\n\r\n" = httpResponse .NotFound ∧
      (HttpStatusCode.NotFound = .NotFound →
        str "HTTP/1.1 404 Not Found\r\n\r\n" =
          str "HTTP/1.1 404 Not Found\r\n\r\n") :=
  response_is_bare_status_line [] .NotFound [] []
    (str "HTTP/1.1 404 Not Found\r\n\r\n") [] (by decide)

set_option maxRecDepth 100000 in
/-- C3.  Scenario B: with a Transfer-Encoding: chunked header, the chunked
bytes "4\r\nWiki\r\n5\r\npedia\r\n0\r\n\r\n" assemble to the body
"Wikipedia"; the final blank line after the terminal chunk is not read. -/
theorem chunked_scenario_wikipedia :
    chunkLoop (str "4\r\nWiki\r\n5\r\npedia\r\n0\r\n\r\n") =
      .ok (str "Wikipedia", str "\r\n") ∧
    handle_connection
        (str ("POST / HTTP/1.1\r\nHost: x\r\nTransfer-Encoding: chunked" ++
          "\r\n\r\n4\r\nWiki\r\n5\r\npedia\r\n0\r\n\r\n")) .OK =
      .done
        [str "POST / HTTP/1.1", str "Host: x",
          str "Transfer-Encoding: chunked"]
        (str "Wikipedia") (str "HTTP/1.1 200 OK\r\n\r\n") (str "\r\n") :=
  ⟨by rfl, by decide⟩

/-- C4.  The framing decision yields Chunked exactly when some header line,
lowercased, starts with "transfer-encoding:" and contains "chunked"; since
the decision is a total function into a three-variant type, exactly one of
Chunked, ContentLength(n), NoBody is selected, and Chunked wins whenever
such a header is present, content-length headers notwithstanding. -/
theorem framingDecision_chunked_iff (hs : List (List Nat)) :
    framingDecision hs = .chunked ↔ ∃ h ∈ hs, isChunkedHeader h = true := by
  unfold framingDecision
  by_cases hc : hs.any isChunkedHeader
  · simp only [hc, if_true]
    simpa [List.any_eq_true] using hc
  · rcases hcv : contentLengthValue hs with _ | n <;>
      simp_all [List.any_eq_true]

/-- Witness for C4: both a chunked transfer-encoding header and a
content-length header present; Chunked wins. -/
theorem framingDecision_chunked_iff_witness :
    framingDecision [str "Transfer-Encoding: chunked",
      str "Content-Length: 5"] = .chunked :=
  (framingDecision_chunked_iff _).mpr (by decide)

/-- C5.  Parsing each registered code and reading back the phrase
reproduces the canonical IANA reason phrase, for all 61 registered codes. -/
theorem status_code_roundtrip :
    (canonicalReasonTable.all fun p =>
      ((HttpStatusCode.from_u16 p.1).map HttpStatusCode.reason_phrase) ==
        some p.2) = true ∧
    canonicalReasonTable.map Prod.fst = registeredCodes ∧
    canonicalReasonTable.length = 61 := by
  refine ⟨by decide, by decide, by decide⟩

/-- C7.  In chunked assembly, a size line that does not parse as hex (after
trimming) behaves exactly like a terminal size-0 line: the loop stops with
the body accumulated so far, the remaining stream untouched past that line,
and no panic. -/
theorem chunk_size_unparseable_stops (fuel : Nat) (input body l rest : List Nat)
    (h1 : readLine input = some (l, rest))
    (h2 : parseHexU64 (trimStr l) = none) :
    chunkLoopAux (fuel + 1) input body = .ok (body, rest) ∧
      chunkLoop input = .ok ([], rest) := by
  constructor
  · simp [chunkLoopAux, h1, h2]
  · unfold chunkLoop
    simp [chunkLoopAux, h1, h2]

/-- Witness for C7: size line "ZZZ" is not hexadecimal; the loop returns the
body accumulated so far and does not consume the following bytes. -/
theorem chunk_size_unparseable_stops_witness :
    chunkLoopAux 1 (str "ZZZ\r\nmore") (str "abc") =
      .ok (str "abc", str "more") ∧
    chunkLoop (str "ZZZ\r\nmore") = .ok ([], str "more") :=
  chunk_size_unparseable_stops 0 (str "ZZZ\r\nmore") (str "abc")
    (str "ZZZ\r\n") (str "more") (by decide) (by decide)

set_option maxHeartbeats 2000000 in
/-- C9.  from_u16 accepts exactly the closed registered set (stated for
every natural number, which subsumes every u16 value), rejecting everything
else (999 and 0 included), and an unregistered configured return code
panics before any listener exists, so no connection is ever handled. -/
theorem from_u16_exact_set :
    (∀ v : Nat,
      ((HttpStatusCode.from_u16 v).isSome = true ↔ v ∈ registeredCodes)) ∧
    HttpStatusCode.from_u16 999 = none ∧
    HttpStatusCode.from_u16 0 = none ∧
    ∀ conns, runServer 999 conns = .configPanic ∧
      runServer 0 conns = .configPanic := by
  refine ⟨fun v => ?_, rfl, rfl, fun conns => ⟨rfl, rfl⟩⟩
  unfold HttpStatusCode.from_u16
  split <;> simp_all [registeredCodes]

/-- Witness for C9 at v = 404 (accepted) and v = 999 (rejected). -/
theorem from_u16_exact_set_witness :
    (HttpStatusCode.from_u16 404).isSome = true ∧
      runServer 999 [] = .configPanic :=
  ⟨(from_u16_exact_set.1 404).mpr (by decide),
    (from_u16_exact_set.2.2.2 []).1⟩

/-- C10.  When no header selects chunked framing and the content-length
extraction fails (no "content-length:" header, a header without the ": "
separator such as "Content-Length:5", or a non-numeric value), the
connection is treated as NoBody: the body is empty, no body bytes are
consumed from the stream (the done outcome retains all of them), and the
response is still written. -/
theorem no_framing_means_nobody (input : List Nat) (code : HttpStatusCode)
    (hs : List (List Nat)) (rest : List Nat)
    (hcol : collectHeaders input = some (hs, rest))
    (hchunk : hs.any isChunkedHeader = false)
    (hcl : contentLengthValue hs = none) :
    handle_connection input code = .done hs [] (httpResponse code) rest := by
  have hfr : framingDecision hs = .noBody := by
    unfold framingDecision
    simp [hchunk, hcl]
  unfold handle_connection
  simp only [hcol, hfr]

set_option maxRecDepth 100000 in
/-- Witness for C10: a "Content-Length:5" header written without the space
separator, followed by bytes "xyz" that are never read. -/
theorem no_framing_means_nobody_witness :
    handle_connection (str "GET / HTTP/1.1\r\nContent-Length:5\r\n\r\nxyz")
        .OK =
      .done [str "GET / HTTP/1.1", str "Content-Length:5"] []
        (httpResponse .OK) (str "xyz") :=
  no_framing_means_nobody (str "GET / HTTP/1.1\r\nContent-Length:5\r\n\r\nxyz")
    .OK [str "GET / HTTP/1.1", str "Content-Length:5"] (str "xyz")
    (by decide) (by decide) (by decide)

set_option maxRecDepth 100000 in
/-- Counterexample to C1 as stated.  On the stream of Scenario D
(Content-Length: 10, stream closes after 3 body bytes) the connection does
fail on the truncated read and no response is written, but the failure is a
process-aborting panic: with a second connection queued, the server produces
only one outcome, so the listener does not accept and handle the next
connection as the claim asserts. -/
theorem truncated_body_isolation_cex :
    serverRun .OK [str "POST / HTTP/1.1\r\nContent-Length: 10\r\n\r\nabc", []]
      = [.panicked .truncatedBody] ∧
    ¬ (serverRun .OK
        [str "POST / HTTP/1.1\r\nContent-Length: 10\r\n\r\nabc", []]).length
      = 2 := by
  refine ⟨by decide, by decide⟩

/-- C1, amended.  A connection whose headers select ContentLength(n) with
fewer than n stream bytes remaining fails on the exact read (the
TruncatedBody condition) and no response is written to it, but the failure
is not isolated: the unwrap panic terminates the process, so no later
connection is handled. -/
theorem contentLength_truncated_panics_process (input : List Nat)
    (code : HttpStatusCode) (hs : List (List Nat)) (rest : List Nat)
    (n : Nat) (more : List (List Nat))
    (hcol : collectHeaders input = some (hs, rest))
    (hfr : framingDecision hs = .contentLength n)
    (hshort : rest.length < n) :
    handle_connection input code = .panicked .truncatedBody ∧
      serverRun code (input :: more) = [.panicked .truncatedBody] := by
  have h1 : handle_connection input code = .panicked .truncatedBody := by
    unfold handle_connection
    simp only [hcol, hfr]
    rw [if_neg (by omega)]
  exact ⟨h1, serverRun_cons_panicked code input more _ h1⟩

set_option maxRecDepth 100000 in
/-- Witness for amended C1: Scenario D's stream followed by an empty second
connection that is never reached. -/
theorem contentLength_truncated_panics_process_witness :
    handle_connection (str "POST / HTTP/1.1\r\nContent-Length: 10\r\n\r\nabc")
        .OK = .panicked .truncatedBody ∧
      serverRun .OK
        [str "POST / HTTP/1.1\r\nContent-Length: 10\r\n\r\nabc", []] =
        [.panicked .truncatedBody] :=
  contentLength_truncated_panics_process
    (str "POST / HTTP/1.1\r\nContent-Length: 10\r\n\r\nabc") .OK
    [str "POST / HTTP/1.1", str "Content-Length: 10"] (str "abc") 10 [[]]
    (by decide) (by decide) (by decide)

set_option maxRecDepth 100000 in
/-- Counterexample to C8 as stated.  A Content-Length body of two 0xFF bytes
is rejected by the strict UTF-8 decode, but the rejection is a
process-aborting panic: with a second connection queued the server produces
only one outcome, so the listener does not continue accepting connections
as the claim asserts. -/
theorem invalid_utf8_isolation_cex :
    serverRun .OK
        [str "POST / HTTP/1.1\r\nContent-Length: 2\r\n\r\n" ++ [255, 255], []]
      = [.panicked .invalidBodyEncoding] ∧
    ¬ (serverRun .OK
        [str "POST / HTTP/1.1\r\nContent-Length: 2\r\n\r\n" ++ [255, 255],
          []]).length = 2 := by
  refine ⟨by decide, by decide⟩

/-- C8, amended.  When ContentLength(n) framing is selected and n body bytes
are available but are not valid strict UTF-8, the connection fails with the
InvalidBodyEncoding condition; the failure is not isolated: the unwrap panic
terminates the process, so no later connection is handled. -/
theorem contentLength_invalid_utf8_panics_process (input : List Nat)
    (code : HttpStatusCode) (hs : List (List Nat)) (rest : List Nat)
    (n : Nat) (more : List (List Nat))
    (hcol : collectHeaders input = some (hs, rest))
    (hfr : framingDecision hs = .contentLength n)
    (hn : n ≤ rest.length)
    (hbad : utf8Decode (rest.take n) = none) :
    handle_connection input code = .panicked .invalidBodyEncoding ∧
      serverRun code (input :: more) = [.panicked .invalidBodyEncoding] := by
  have h1 : handle_connection input code = .panicked .invalidBodyEncoding := by
    unfold handle_connection
    simp only [hcol, hfr]
    rw [if_pos hn]
    simp only [hbad]
  exact ⟨h1, serverRun_cons_panicked code input more _ h1⟩

set_option maxRecDepth 100000 in
/-- Witness for amended C8: a two-byte 0xFF 0xFF body followed by an empty
second connection that is never reached. -/
theorem contentLength_invalid_utf8_panics_process_witness :
    handle_connection
        (str "POST / HTTP/1.1\r\nContent-Length: 2\r\n\r\n" ++ [255, 255])
        .OK = .panicked .invalidBodyEncoding ∧
      serverRun .OK
        [str "POST / HTTP/1.1\r\nContent-Length: 2\r\n\r\n" ++ [255, 255],
          []] = [.panicked .invalidBodyEncoding] :=
  contentLength_invalid_utf8_panics_process
    (str "POST / HTTP/1.1\r\nContent-Length: 2\r\n\r\n" ++ [255, 255]) .OK
    [str "POST / HTTP/1.1", str "Content-Length: 2"] [255, 255] 2 [[]]
    (by decide) (by decide) (by decide) (by decide)

/-! Lemma suite for the header-collection claim: UTF-8 encode/decode
round-trip, line splitting over encoded lines, and the collection loop
evaluated on an encoded header block. -/

theorem validScalar_iff (c : Nat) :
    validScalar c = true ↔ c < 0x110000 ∧ (c < 0xD800 ∨ 0xDFFF < c) := by
  simp [validScalar]

theorem utf8DecodeOne_length (b : Nat) (rest : List Nat) (cp : Nat)
    (r : List Nat) (h : utf8DecodeOne b rest = some (cp, r)) :
    r.length ≤ rest.length := by
  unfold utf8DecodeOne at h
  repeat' split at h
  all_goals simp_all
  all_goals omega

theorem utf8DecodeAux_fuel_pair : ∀ (f1 : Nat) (input : List Nat) (f2 : Nat),
    input.length ≤ f1 → input.length ≤ f2 →
    utf8DecodeAux f1 input = utf8DecodeAux f2 input := by
  intro f1
  induction f1 with
  | zero =>
    intro input f2 h1 h2
    have he : input = [] := List.eq_nil_of_length_eq_zero (by omega)
    subst he
    cases f2 <;> rfl
  | succ f ih =>
    intro input f2 h1 h2
    match input with
    | [] => cases f2 <;> rfl
    | b :: rest =>
      rcases f2 with _ | f2
      · simp at h2
      · simp only [utf8DecodeAux]
        rcases hd : utf8DecodeOne b rest with _ | ⟨cp, r⟩
        · rfl
        · have hr := utf8DecodeOne_length b rest cp r hd
          simp only [List.length_cons] at h1 h2
          dsimp only
          rw [ih r f2 (by omega) (by omega)]

theorem utf8DecodeAux_eq_decode (f : Nat) (input : List Nat)
    (h : input.length ≤ f) : utf8DecodeAux f input = utf8Decode input :=
  utf8DecodeAux_fuel_pair f input input.length h (Nat.le_refl _)

theorem utf8Decode_cons_one (b : Nat) (bs rest : List Nat) (c : Nat)
    (hone : utf8DecodeOne b (bs ++ rest) = some (c, rest)) :
    utf8Decode (b :: (bs ++ rest)) = (utf8Decode rest).map (c :: ·) := by
  show utf8DecodeAux (b :: (bs ++ rest)).length (b :: (bs ++ rest)) = _
  simp only [List.length_cons, utf8DecodeAux, hone]
  rw [utf8DecodeAux_eq_decode _ rest (by simp)]

theorem utf8Decode_encodeChar_append (c : Nat) (hv : validScalar c = true)
    (rest : List Nat) :
    utf8Decode (utf8EncodeChar c ++ rest) = (utf8Decode rest).map (c :: ·) := by
  rw [validScalar_iff] at hv
  by_cases h1 : c < 0x80
  · have he : utf8EncodeChar c = [c] := by
      unfold utf8EncodeChar
      rw [if_pos h1]
    rw [he]
    have hone : utf8DecodeOne c ([] ++ rest) = some (c, rest) := by
      unfold utf8DecodeOne
      rw [if_pos h1]
      rfl
    simpa using utf8Decode_cons_one c [] rest c hone
  · by_cases h2 : c < 0x800
    · have he : utf8EncodeChar c = [0xC0 + c / 64, 0x80 + c % 64] := by
        unfold utf8EncodeChar
        rw [if_neg h1, if_pos h2]
      rw [he]
      have e4 : isUtf8Cont (0x80 + c % 64) = true := by
        simp [isUtf8Cont]
        omega
      have hone : utf8DecodeOne (0xC0 + c / 64) ([0x80 + c % 64] ++ rest) =
          some (c, rest) := by
        unfold utf8DecodeOne
        rw [if_neg (by omega), if_neg (by omega), if_pos (by omega : 0xC0 + c / 64 ≤ 0xDF)]
        simp only [List.cons_append, List.nil_append, e4, if_true]
        rw [show (0xC0 + c / 64 - 0xC0) * 64 + (0x80 + c % 64 - 0x80) = c by omega]
      simpa using utf8Decode_cons_one (0xC0 + c / 64) [0x80 + c % 64] rest c hone
    · by_cases h3 : c < 0x10000
      · have he : utf8EncodeChar c =
            [0xE0 + c / 4096, 0x80 + c / 64 % 64, 0x80 + c % 64] := by
          unfold utf8EncodeChar
          rw [if_neg h1, if_neg h2, if_pos h3]
        rw [he]
        have e5 : utf8Valid3 (0xE0 + c / 4096) (0x80 + c / 64 % 64) = true := by
          unfold utf8Valid3
          by_cases hb : c < 0x1000
          · rw [if_pos (by omega)]
            simp
            omega
          · rw [if_neg (by omega)]
            by_cases hb2 : 0xE0 + c / 4096 = 0xED
            · rw [if_pos hb2]
              simp
              omega
            · rw [if_neg hb2]
              simp [isUtf8Cont]
              omega
        have e6 : isUtf8Cont (0x80 + c % 64) = true := by
          simp [isUtf8Cont]
          omega
        have hone : utf8DecodeOne (0xE0 + c / 4096)
            ([0x80 + c / 64 % 64, 0x80 + c % 64] ++ rest) = some (c, rest) := by
          unfold utf8DecodeOne
          rw [if_neg (by omega), if_neg (by omega), if_neg (by omega : ¬ 0xE0 + c / 4096 ≤ 0xDF),
            if_pos (by omega : 0xE0 + c / 4096 ≤ 0xEF)]
          simp only [List.cons_append, List.nil_append, e5, e6, Bool.and_self, if_true]
          rw [show (0xE0 + c / 4096 - 0xE0) * 4096 + (0x80 + c / 64 % 64 - 0x80) * 64 +
            (0x80 + c % 64 - 0x80) = c by omega]
        simpa using utf8Decode_cons_one (0xE0 + c / 4096)
          [0x80 + c / 64 % 64, 0x80 + c % 64] rest c hone
      · have h4 : c < 0x110000 := hv.1
        have he : utf8EncodeChar c =
            [0xF0 + c / 262144, 0x80 + c / 4096 % 64, 0x80 + c / 64 % 64,
              0x80 + c % 64] := by
          unfold utf8EncodeChar
          rw [if_neg h1, if_neg h2, if_neg h3]
        rw [he]
        have e6 : utf8Valid4 (0xF0 + c / 262144) (0x80 + c / 4096 % 64) = true := by
          unfold utf8Valid4
          by_cases hb : c < 0x40000
          · rw [if_pos (by omega)]
            simp
            omega
          · rw [if_neg (by omega)]
            by_cases hb2 : 0xF0 + c / 262144 = 0xF4
            · rw [if_pos hb2]
              simp
              omega
            · rw [if_neg hb2]
              simp [isUtf8Cont]
              omega
        have e7 : isUtf8Cont (0x80 + c / 64 % 64) = true := by
          simp [isUtf8Cont]
          omega
        have e8 : isUtf8Cont (0x80 + c % 64) = true := by
          simp [isUtf8Cont]
          omega
        have hone : utf8DecodeOne (0xF0 + c / 262144)
            ([0x80 + c / 4096 % 64, 0x80 + c / 64 % 64, 0x80 + c % 64] ++ rest) =
            some (c, rest) := by
          unfold utf8DecodeOne
          rw [if_neg (by omega), if_neg (by omega), if_neg (by omega : ¬ 0xF0 + c / 262144 ≤ 0xDF),
            if_neg (by omega : ¬ 0xF0 + c / 262144 ≤ 0xEF),
            if_pos (by omega : 0xF0 + c / 262144 ≤ 0xF4)]
          simp only [List.cons_append, List.nil_append, e6, e7, e8, Bool.and_self, if_true]
          rw [show (0xF0 + c / 262144 - 0xF0) * 262144 + (0x80 + c / 4096 % 64 - 0x80) * 4096 +
            (0x80 + c / 64 % 64 - 0x80) * 64 + (0x80 + c % 64 - 0x80) = c by omega]
        simpa using utf8Decode_cons_one (0xF0 + c / 262144)
          [0x80 + c / 4096 % 64, 0x80 + c / 64 % 64, 0x80 + c % 64] rest c hone

theorem utf8Decode_encode_append (l rest : List Nat)
    (h : ∀ c ∈ l, validScalar c = true) :
    utf8Decode (utf8Encode l ++ rest) = (utf8Decode rest).map (l ++ ·) := by
  induction l with
  | nil =>
    simp [utf8Encode]
  | cons c cs ih =>
    have hc : validScalar c = true := h c (by simp)
    have hcs : ∀ x ∈ cs, validScalar x = true := fun x hx => h x (by simp [hx])
    have : utf8Encode (c :: cs) = utf8EncodeChar c ++ utf8Encode cs := by
      simp [utf8Encode]
    rw [this, List.append_assoc, utf8Decode_encodeChar_append c hc, ih hcs]
    rcases utf8Decode rest with _ | v <;> simp

theorem utf8Encode_append (a b : List Nat) :
    utf8Encode (a ++ b) = utf8Encode a ++ utf8Encode b := by
  simp [utf8Encode]

theorem utf8Decode_encode (l : List Nat) (h : ∀ c ∈ l, validScalar c = true) :
    utf8Decode (utf8Encode l) = some l := by
  have h2 := utf8Decode_encode_append l [] h
  have h0 : utf8Decode [] = some [] := rfl
  rw [h0] at h2
  simpa using h2

theorem lf_not_mem_encodeChar (c : Nat) (hc : c ≠ 10) :
    10 ∉ utf8EncodeChar c := by
  unfold utf8EncodeChar
  by_cases h1 : c < 0x80
  · simp [h1]
    omega
  · by_cases h2 : c < 0x800
    · simp [h1, h2]
      omega
    · by_cases h3 : c < 0x10000
      · simp [h1, h2, h3]
        omega
      · simp [h1, h2, h3]
        omega

theorem lf_not_mem_encode (l : List Nat) (h : 10 ∉ l) :
    10 ∉ utf8Encode l := by
  induction l with
  | nil => simp [utf8Encode]
  | cons c cs ih =>
    have : utf8Encode (c :: cs) = utf8EncodeChar c ++ utf8Encode cs := by
      simp [utf8Encode]
    rw [this]
    intro hm
    rcases List.mem_append.mp hm with hm | hm
    · exact lf_not_mem_encodeChar c (fun e => h (by simp [e])) hm
    · exact ih (fun hx => h (by simp [hx])) hm

theorem splitLine_no_lf (bs rest : List Nat) (h : 10 ∉ bs) :
    splitLine (bs ++ 10 :: rest) = (bs ++ [10], rest) := by
  induction bs with
  | nil => simp [splitLine]
  | cons b bt ih =>
    have hb : ¬ b = 10 := fun e => h (by simp [e])
    have ht : 10 ∉ bt := fun hm => h (by simp [hm])
    simp only [List.cons_append, splitLine, if_neg hb, List.append_eq, ih ht]

theorem readLine_encoded (l rest : List Nat)
    (hv : ∀ c ∈ l, validScalar c = true) (hlf : 10 ∉ l) :
    readLine (utf8Encode l ++ 13 :: 10 :: rest) = some (l ++ [13, 10], rest) := by
  have h1 : 10 ∉ utf8Encode l ++ [13] := by
    intro hm
    rcases List.mem_append.mp hm with hm | hm
    · exact lf_not_mem_encode l hlf hm
    · simp at hm
  have hshape : utf8Encode l ++ 13 :: 10 :: rest =
      (utf8Encode l ++ [13]) ++ 10 :: rest := by
    simp
  have h2 : splitLine (utf8Encode l ++ 13 :: 10 :: rest) =
      ((utf8Encode l ++ [13]) ++ [10], rest) := by
    rw [hshape]
    exact splitLine_no_lf _ _ h1
  have h3 : (utf8Encode l ++ [13]) ++ [10] = utf8Encode (l ++ [13, 10]) := by
    rw [utf8Encode_append]
    simp [utf8Encode, utf8EncodeChar]
  have h4 : utf8Decode ((utf8Encode l ++ [13]) ++ [10]) = some (l ++ [13, 10]) := by
    rw [h3]
    exact utf8Decode_encode (l ++ [13, 10]) (by
      intro c hc
      rcases List.mem_append.mp hc with hc | hc
      · exact hv c hc
      · have hc2 : c = 13 ∨ c = 10 := by simpa using hc
        rcases hc2 with rfl | rfl <;> rfl)
  unfold readLine
  rw [h2]
  dsimp only
  rw [h4]

theorem trimStr_append_crlf (l : List Nat) : trimStr (l ++ [13, 10]) = trimStr l := by
  have w13 : isRustWhitespace 13 = true := rfl
  have w10 : isRustWhitespace 10 = true := rfl
  unfold trimStr
  rw [List.dropWhile_append]
  by_cases h : (l.dropWhile isRustWhitespace).isEmpty
  · simp only [h, if_true]
    have h2 : List.dropWhile isRustWhitespace [13, 10] = [] := rfl
    rw [h2]
    rw [List.isEmpty_iff] at h
    rw [h]
  · rw [if_neg h, List.reverse_append]
    show (List.dropWhile isRustWhitespace
      (10 :: 13 :: (l.dropWhile isRustWhitespace).reverse)).reverse = _
    rw [List.dropWhile_cons, if_pos w10, List.dropWhile_cons, if_pos w13]

theorem utf8Encode_length_pos (l : List Nat) (h : l ≠ []) :
    0 < (utf8Encode l).length := by
  rcases l with _ | ⟨c, cs⟩
  · simp at h
  · have he : utf8Encode (c :: cs) = utf8EncodeChar c ++ utf8Encode cs := by
      simp [utf8Encode]
    rw [he]
    have hc : 0 < (utf8EncodeChar c).length := by
      unfold utf8EncodeChar
      repeat' split
      all_goals simp
    simp only [List.length_append]
    omega

theorem collectHeadersAux_encoded (ls : List (List Nat)) :
    ∀ (fuel : Nat) (tail res : List Nat),
    (tail = 13 :: 10 :: res ∨ (tail = [] ∧ res = [])) →
    (encodeHeaderLines ls ++ tail).length < fuel →
    (∀ l ∈ ls, l ≠ [] ∧ 10 ∉ l ∧ ∀ c ∈ l, validScalar c = true) →
    collectHeadersAux fuel (encodeHeaderLines ls ++ tail) =
      some (ls.map trimStr, res) := by
  induction ls with
  | nil =>
    intro fuel tail res hterm hlen hgood
    simp only [encodeHeaderLines, List.map_nil, List.flatten_nil,
      List.nil_append] at hlen ⊢
    rcases hterm with rfl | ⟨rfl, rfl⟩
    · rcases fuel with _ | f
      · omega
      · have hr : readLine (13 :: 10 :: res) = some ([13, 10], res) := rfl
        simp only [collectHeadersAux, hr]
        simp only [if_true]
    · rcases fuel with _ | f <;> rfl
  | cons l ls ih =>
    intro fuel tail res hterm hlen hgood
    obtain ⟨hne, hlf, hv⟩ := hgood l (by simp)
    have hgood2 : ∀ x ∈ ls, x ≠ [] ∧ 10 ∉ x ∧ ∀ c ∈ x, validScalar c = true :=
      fun x hx => hgood x (by simp [hx])
    have henc : encodeHeaderLines (l :: ls) ++ tail =
        utf8Encode l ++ 13 :: 10 :: (encodeHeaderLines ls ++ tail) := by
      simp [encodeHeaderLines]
    rw [henc] at hlen ⊢
    rcases fuel with _ | f
    · omega
    · obtain ⟨b, bs, hbs⟩ : ∃ b bs,
          utf8Encode l ++ 13 :: 10 :: (encodeHeaderLines ls ++ tail) =
            b :: bs := by
        rcases utf8Encode l with _ | ⟨x, xs⟩
        · exact ⟨13, 10 :: (encodeHeaderLines ls ++ tail), by simp⟩
        · exact ⟨x, xs ++ 13 :: 10 :: (encodeHeaderLines ls ++ tail), by simp⟩
      rw [hbs]
      simp only [collectHeadersAux]
      rw [← hbs, readLine_encoded l (encodeHeaderLines ls ++ tail) hv hlf]
      dsimp only
      rw [if_neg (by
        intro he2
        have hlen2 := congrArg List.length he2
        simp only [List.length_append, List.length_cons, List.length_nil] at hlen2
        exact hne (List.eq_nil_of_length_eq_zero (by omega)))]
      have hfuel : (encodeHeaderLines ls ++ tail).length < f := by
        have hp := utf8Encode_length_pos l hne
        simp only [List.length_append, List.length_cons] at hlen ⊢
        omega
      rw [ih f tail res hterm hfuel hgood2]
      dsimp only
      rw [trimStr_append_crlf]
      simp

/-- C6, amended.  Header collection appends every line of the block, in
wire order with duplicates preserved, trimmed (a line that trims to empty
but is not a bare CRLF, such as a lone space, is appended as an empty
string rather than terminating collection); the state terminates exactly at
the first line that is literally "\r\n", and also terminates without error
at end-of-stream, in which case the headers collected so far are used. -/
theorem header_collection_appends_and_terminates (ls : List (List Nat))
    (rest : List Nat)
    (hgood : ∀ l ∈ ls, l ≠ [] ∧ 10 ∉ l ∧ ∀ c ∈ l, validScalar c = true) :
    collectHeaders (encodeHeaderLines ls ++ 13 :: 10 :: rest) =
      some (ls.map trimStr, rest) ∧
    collectHeaders (encodeHeaderLines ls) = some (ls.map trimStr, []) := by
  constructor
  · exact collectHeadersAux_encoded ls _ _ rest (Or.inl rfl) (by omega) hgood
  · have h2 := collectHeadersAux_encoded ls
      ((encodeHeaderLines ls).length + 1) [] [] (Or.inr ⟨rfl, rfl⟩)
      (by simp) hgood
    simpa using h2

/-- Witness for amended C6: a block with a duplicate header line and a
line consisting of one space (appended as the empty string). -/
theorem header_collection_appends_and_terminates_witness :
    collectHeaders (encodeHeaderLines [str "Host: a", str " ", str "Host: a"] ++
        13 :: 10 :: str "body") =
      some ([str "Host: a", str " ", str "Host: a"].map trimStr, str "body") ∧
    collectHeaders (encodeHeaderLines [str "Host: a", str " ", str "Host: a"]) =
      some ([str "Host: a", str " ", str "Host: a"].map trimStr, []) :=
  header_collection_appends_and_terminates
    [str "Host: a", str " ", str "Host: a"] (str "body") (by decide)

set_option maxRecDepth 100000 in
/-- Counterexample to C6 as stated.  The line " \r\n" equals the empty
string after trimming, yet collection does not terminate there: the code
only terminates on a line that is exactly "\r\n", so the empty-trimmed
line is appended as an empty header and the two later lines are still
processed, contradicting termination at the first empty-after-trim line. -/
theorem header_collection_trim_terminator_cex :
    collectHeaders (str "Host: x\r\n \r\nB: 2\r\n\r\nrest") =
      some ([str "Host: x", [], str "B: 2"], str "rest") ∧
    trimStr (str " \r\n") = [] ∧
    ¬ collectHeaders (str "Host: x\r\n \r\nB: 2\r\n\r\nrest") =
        some ([str "Host: x"], str "B: 2\r\n\r\nrest") := by
  refine ⟨by decide, by decide, by decide⟩

end Waiter
